import Mathlib

/-!
Shallow embedding of the GitHub REST facade of the entropys repository.

The embedding covers `github_api.py` (the `GitHubAPI` client and its module
level helpers), the pull-request payload construction of `agent.py`
(`create_improvement_pr`), and the spec-modelled duplicate guard
`ensureNoDuplicate`.

Python exceptions are modelled with `Except PyExn`; the HTTP library
(`requests`) is modelled as an oracle function from an outgoing request to an
outcome (either a response or a raised exception).  Every operation returns,
besides the value the Python function returns or the exception it would
propagate, the list of HTTP calls it performed and the facade object it
leaves behind, so that call counts and state mutation are provable
properties.
-/

namespace Entropys

/-- JSON values, the payloads exchanged with the GitHub API. -/
inductive Json where
  | null : Json
  | bool (b : Bool) : Json
  | num (n : Int) : Json
  | str (s : String) : Json
  | arr (elems : List Json) : Json
  | obj (fields : List (String × Json)) : Json

/-- Python exceptions relevant to `github_api.py`: `ValueError` raised by the
helpers and by the unsupported-method branch, exceptions raised by the
`requests` library (connection failures, timeouts), and anything else. -/
inductive PyExn where
  | valueError (msg : String) : PyExn
  | requestError (msg : String) : PyExn
  | other (msg : String) : PyExn

/-- An HTTP response as observed through the `requests` response object:
`status_code`, the raw `text`, and the decoded body (`none` models a body on
which `response.json()` raises `ValueError`). -/
structure Response where
  status_code : Nat
  text : String
  jsonBody : Option Json

/-- An outgoing HTTP call: the normalized method, the full URL, the header
dictionary, the serialized JSON body if one was attached, and the timeout. -/
structure HttpRequest where
  method : String
  url : String
  headers : List (String × String)
  jsonBody : Option (List (String × Json))
  timeout : Nat

/-- The behaviour of the `requests` library: each outgoing request either
produces a response or raises an exception. -/
def HttpOracle : Type := HttpRequest → Except PyExn Response

/-- The process environment: a partial map from variable names to values. -/
def Env : Type := String → Option String

/-- `os.getenv(name, default)`. -/
def os_getenv (env : Env) (name dflt : String) : String :=
  (env name).getD dflt

/-- `get_github_token` (github_api.py lines 20-25): read `GITHUB_TOKEN`,
raising `ValueError` when it is unset or empty. -/
def get_github_token (env : Env) : Except PyExn String :=
  let token := os_getenv env "GITHUB_TOKEN" ""
  if token = "" then
    Except.error (PyExn.valueError "GITHUB_TOKEN environment variable not found")
  else
    Except.ok token

/-- `get_github_headers` (github_api.py lines 27-35): the header dictionary
attached to every call, in insertion order. -/
def get_github_headers (env : Env) : Except PyExn (List (String × String)) :=
  match get_github_token env with
  | Except.error e => Except.error e
  | Except.ok token =>
      Except.ok
        [("Authorization", "Bearer " ++ token),
         ("Accept", "application/vnd.github.v3+json"),
         ("Content-Type", "application/json"),
         ("User-Agent", "GitHub-Agent/1.0")]

/-- `get_repository_info` (github_api.py lines 37-42): read
`GITHUB_REPOSITORY`, raising `ValueError` when unset or empty. -/
def get_repository_info (env : Env) : Except PyExn String :=
  let repo := os_getenv env "GITHUB_REPOSITORY" ""
  if repo = "" then
    Except.error (PyExn.valueError "GITHUB_REPOSITORY environment variable not found")
  else
    Except.ok repo

/-- `get_github_actor` (github_api.py lines 44-46). -/
def get_github_actor (env : Env) : String :=
  os_getenv env "GITHUB_ACTOR" "owner"

/-- The `GitHubAPI` object: the four attributes set by `__init__`. -/
structure GitHubAPI where
  base_url : String
  repo : String
  actor : String
  headers : List (String × String)

/-- `GitHubAPI.__init__` (github_api.py lines 51-55).  It resolves the
repository, the actor and the headers (in that order, so an absent
repository raises first) and performs no HTTP call, which the empty trace
records. -/
def GitHubAPI.init (env : Env) : Except PyExn GitHubAPI × List HttpRequest :=
  (match get_repository_info env with
   | Except.error e => Except.error e
   | Except.ok repo =>
       match get_github_headers env with
       | Except.error e => Except.error e
       | Except.ok hdrs =>
           Except.ok
             { base_url := "https://api.github.com"
               repo := repo
               actor := get_github_actor env
               headers := hdrs }, [])

/-- Python truthiness of an `Optional[Dict]`: `None` and the empty dict are
falsy. -/
def pyTruthyDict : Option (List (String × Json)) → Bool
  | none => false
  | some kvs => !kvs.isEmpty

/-- Python truthiness of an `Optional[List[str]]`. -/
def pyTruthyList : Option (List String) → Bool
  | none => false
  | some l => !l.isEmpty

/-- Python truthiness of an `Optional[str]`. -/
def pyTruthyStr : Option String → Bool
  | none => false
  | some s => !(s = "")

/-- Python truthiness of an `Optional[int]`: `None` and `0` are falsy. -/
def pyTruthyInt : Option Int → Bool
  | none => false
  | some n => !(n = 0)

/-- `str.lstrip(c)`: drop every leading occurrence of the character. -/
def lstrip (s : String) (c : Char) : String :=
  String.mk (s.toList.dropWhile (fun x => x == c))

/-- `str.upper()` over ASCII, written so that it evaluates by kernel
reduction (the core `String.toUpper` recursion does not). -/
def strUpper (s : String) : String := String.mk (s.toList.map Char.toUpper)

/-- `str.lower()` over ASCII, written so that it evaluates by kernel
reduction. -/
def strLower (s : String) : String := String.mk (s.toList.map Char.toLower)

/-- The HTTP methods `make_request` dispatches on (github_api.py lines
79-88); any other method falls through to the `raise ValueError` branch. -/
def supportedMethods : List String := ["GET", "POST", "PATCH", "PUT", "DELETE"]

/-- `GitHubAPI.make_request` (github_api.py lines 57-107).

`httpLib` models the module-level `HTTP_LIB_AVAILABLE` flag.  The first
component is what the Python method returns (or would propagate, which the
enclosing `try`/`except Exception` makes impossible), the second the HTTP
calls performed, the third the facade object after the call. -/
def GitHubAPI.make_request (api : GitHubAPI) (httpLib : Bool) (oracle : HttpOracle)
    (method endpoint : String) (data : Option (List (String × Json))) :
    Except PyExn (Option Json) × List HttpRequest × GitHubAPI :=
  if httpLib = false then
    (Except.ok none, [], api)
  else
    let url := api.base_url ++ "/" ++ lstrip endpoint '/'
    let mu := strUpper method
    let jsonArg : Option (List (String × Json)) :=
      if pyTruthyDict data && (mu == "POST" || mu == "PATCH" || mu == "PUT") then data
      else none
    let tryResult : Except PyExn (Option Json) × List HttpRequest :=
      if mu ∈ supportedMethods then
        let req : HttpRequest :=
          { method := mu, url := url, headers := api.headers,
            jsonBody := jsonArg, timeout := 30 }
        match oracle req with
        | Except.error e => (Except.error e, [req])
        | Except.ok resp =>
            if resp.status_code ∈ [200, 201, 202] then
              match resp.jsonBody with
              | some j => (Except.ok (some j), [req])
              | none =>
                  (Except.ok (some (Json.obj
                    [("success", Json.bool true),
                     ("status_code", Json.num (resp.status_code : Int))])), [req])
            else
              (Except.ok none, [req])
      else
        (Except.error (PyExn.valueError ("Unsupported HTTP method: " ++ method)), [])
    match tryResult with
    | (Except.ok r, tr) => (Except.ok r, tr, api)
    | (Except.error _, tr) => (Except.ok none, tr, api)

/-- `GitHubAPI.get_repo_info` (github_api.py lines 109-111). -/
def GitHubAPI.get_repo_info (api : GitHubAPI) (httpLib : Bool) (oracle : HttpOracle) :
    Except PyExn (Option Json) × List HttpRequest × GitHubAPI :=
  api.make_request httpLib oracle "GET" ("repos/" ++ api.repo) none

/-- `GitHubAPI.get_issues` (github_api.py lines 113-115). -/
def GitHubAPI.get_issues (api : GitHubAPI) (httpLib : Bool) (oracle : HttpOracle)
    (state : String) : Except PyExn (Option Json) × List HttpRequest × GitHubAPI :=
  api.make_request httpLib oracle "GET" ("repos/" ++ api.repo ++ "/issues?state=" ++ state) none

/-- `GitHubAPI.get_pull_requests` (github_api.py lines 117-119). -/
def GitHubAPI.get_pull_requests (api : GitHubAPI) (httpLib : Bool) (oracle : HttpOracle)
    (state : String) : Except PyExn (Option Json) × List HttpRequest × GitHubAPI :=
  api.make_request httpLib oracle "GET" ("repos/" ++ api.repo ++ "/pulls?state=" ++ state) none

/-- `GitHubAPI.create_issue` (github_api.py lines 121-139). -/
def GitHubAPI.create_issue (api : GitHubAPI) (httpLib : Bool) (oracle : HttpOracle)
    (title body : String) (assignees labels : Option (List String))
    (milestone : Option Int) :
    Except PyExn (Option Json) × List HttpRequest × GitHubAPI :=
  let issue_data := [("title", Json.str title), ("body", Json.str body)]
  let issue_data :=
    if pyTruthyList assignees then
      issue_data ++ [("assignees", Json.arr (((assignees.getD []).map Json.str)))]
    else issue_data
  let issue_data :=
    if pyTruthyList labels then
      issue_data ++ [("labels", Json.arr (((labels.getD []).map Json.str)))]
    else issue_data
  let issue_data :=
    if pyTruthyInt milestone then
      issue_data ++ [("milestone", Json.num (milestone.getD 0))]
    else issue_data
  api.make_request httpLib oracle "POST" ("repos/" ++ api.repo ++ "/issues") (some issue_data)

/-- `GitHubAPI.update_issue` (github_api.py lines 141-159). -/
def GitHubAPI.update_issue (api : GitHubAPI) (httpLib : Bool) (oracle : HttpOracle)
    (issue_number : Int) (title body state : Option String)
    (assignees labels : Option (List String)) :
    Except PyExn (Option Json) × List HttpRequest × GitHubAPI :=
  let update_data : List (String × Json) := []
  let update_data :=
    if pyTruthyStr title then update_data ++ [("title", Json.str (title.getD ""))]
    else update_data
  let update_data :=
    if pyTruthyStr body then update_data ++ [("body", Json.str (body.getD ""))]
    else update_data
  let update_data :=
    if pyTruthyStr state then update_data ++ [("state", Json.str (state.getD ""))]
    else update_data
  let update_data :=
    if pyTruthyList assignees then
      update_data ++ [("assignees", Json.arr (((assignees.getD []).map Json.str)))]
    else update_data
  let update_data :=
    if pyTruthyList labels then
      update_data ++ [("labels", Json.arr (((labels.getD []).map Json.str)))]
    else update_data
  api.make_request httpLib oracle "PATCH"
    ("repos/" ++ api.repo ++ "/issues/" ++ toString issue_number) (some update_data)

/-- `GitHubAPI.create_comment` (github_api.py lines 161-165): build the
one-field dict and POST it, with no validation of the body. -/
def GitHubAPI.create_comment (api : GitHubAPI) (httpLib : Bool) (oracle : HttpOracle)
    (issue_number : Int) (body : String) :
    Except PyExn (Option Json) × List HttpRequest × GitHubAPI :=
  let comment_data := [("body", Json.str body)]
  api.make_request httpLib oracle "POST"
    ("repos/" ++ api.repo ++ "/issues/" ++ toString issue_number ++ "/comments")
    (some comment_data)

/-- `GitHubAPI.get_milestones` (github_api.py lines 167-169). -/
def GitHubAPI.get_milestones (api : GitHubAPI) (httpLib : Bool) (oracle : HttpOracle) :
    Except PyExn (Option Json) × List HttpRequest × GitHubAPI :=
  api.make_request httpLib oracle "GET" ("repos/" ++ api.repo ++ "/milestones") none

/-- `GitHubAPI.create_milestone` (github_api.py lines 171-182). -/
def GitHubAPI.create_milestone (api : GitHubAPI) (httpLib : Bool) (oracle : HttpOracle)
    (title : String) (description due_on : Option String) :
    Except PyExn (Option Json) × List HttpRequest × GitHubAPI :=
  let milestone_data := [("title", Json.str title)]
  let milestone_data :=
    if pyTruthyStr description then
      milestone_data ++ [("description", Json.str (description.getD ""))]
    else milestone_data
  let milestone_data :=
    if pyTruthyStr due_on then
      milestone_data ++ [("due_on", Json.str (due_on.getD ""))]
    else milestone_data
  api.make_request httpLib oracle "POST" ("repos/" ++ api.repo ++ "/milestones")
    (some milestone_data)

/-- `GitHubAPI.get_labels` (github_api.py lines 184-186). -/
def GitHubAPI.get_labels (api : GitHubAPI) (httpLib : Bool) (oracle : HttpOracle) :
    Except PyExn (Option Json) × List HttpRequest × GitHubAPI :=
  api.make_request httpLib oracle "GET" ("repos/" ++ api.repo ++ "/labels") none

/-- `GitHubAPI.create_label` (github_api.py lines 188-199). -/
def GitHubAPI.create_label (api : GitHubAPI) (httpLib : Bool) (oracle : HttpOracle)
    (name color : String) (description : Option String) :
    Except PyExn (Option Json) × List HttpRequest × GitHubAPI :=
  let label_data := [("name", Json.str name), ("color", Json.str (lstrip color '#'))]
  let label_data :=
    if pyTruthyStr description then
      label_data ++ [("description", Json.str (description.getD ""))]
    else label_data
  api.make_request httpLib oracle "POST" ("repos/" ++ api.repo ++ "/labels") (some label_data)

/-- `GitHubAPI.get_collaborators` (github_api.py lines 201-203). -/
def GitHubAPI.get_collaborators (api : GitHubAPI) (httpLib : Bool) (oracle : HttpOracle) :
    Except PyExn (Option Json) × List HttpRequest × GitHubAPI :=
  api.make_request httpLib oracle "GET" ("repos/" ++ api.repo ++ "/collaborators") none

/-- `GitHubAPI.get_repository_content` (github_api.py lines 205-207). -/
def GitHubAPI.get_repository_content (api : GitHubAPI) (httpLib : Bool) (oracle : HttpOracle)
    (path : String) : Except PyExn (Option Json) × List HttpRequest × GitHubAPI :=
  api.make_request httpLib oracle "GET" ("repos/" ++ api.repo ++ "/contents/" ++ path) none

/-- The standard base64 alphabet. -/
def base64Table : List Char :=
  "ABCDEFGHIJKLMNOPQRSTUVWXYZabcdefghijklmnopqrstuvwxyz0123456789+/".toList

/-- Index into the base64 alphabet. -/
def b64Char (n : Nat) : Char := base64Table.getD n 'A'

/-- Base64-encode a byte list (values below 256), three bytes to four
characters, with `=` padding. -/
def b64encodeBytes : List Nat → List Char
  | [] => []
  | [a] => [b64Char (a / 4), b64Char (a % 4 * 16), '=', '=']
  | [a, b] => [b64Char (a / 4), b64Char (a % 4 * 16 + b / 16), b64Char (b % 16 * 4), '=']
  | a :: b :: c :: rest =>
      b64Char (a / 4) :: b64Char (a % 4 * 16 + b / 16) ::
        b64Char (b % 16 * 4 + c / 64) :: b64Char (c % 64) :: b64encodeBytes rest

/-- `base64.b64encode(content.encode()).decode()`. -/
def b64encode (s : String) : String :=
  String.mk (b64encodeBytes (s.toUTF8.toList.map (fun b => b.toNat)))

/-- `GitHubAPI.create_or_update_file` (github_api.py lines 209-224). -/
def GitHubAPI.create_or_update_file (api : GitHubAPI) (httpLib : Bool) (oracle : HttpOracle)
    (path message content : String) (sha : Option String) (branch : String) :
    Except PyExn (Option Json) × List HttpRequest × GitHubAPI :=
  let file_data :=
    [("message", Json.str message),
     ("content", Json.str (b64encode content)),
     ("branch", Json.str branch)]
  let file_data :=
    if pyTruthyStr sha then file_data ++ [("sha", Json.str (sha.getD ""))]
    else file_data
  api.make_request httpLib oracle "PUT" ("repos/" ++ api.repo ++ "/contents/" ++ path)
    (some file_data)

/-- The pull-request payload dict built by `create_improvement_pr`
(agent.py lines 443-449): title, body, head and the hard-coded base. -/
def create_improvement_pr_pr_data (title description branch_name : String) :
    List (String × Json) :=
  [("title", Json.str title),
   ("body", Json.str description),
   ("head", Json.str branch_name),
   ("base", Json.str "main")]

/-- The keys of a JSON dict, in order. -/
def dictKeys (kvs : List (String × Json)) : List String := kvs.map Prod.fst

/-- A read-only issue or pull-request summary as the spec's data model
describes it (number, title, body, labels, state). -/
structure Summary where
  number : Nat
  title : String
  body : String
  labels : List String
  state : String

/-- Whether `xs` occurs as a contiguous sublist of the second argument. -/
def listInfixOf (xs : List Char) : List Char → Bool
  | [] => xs.isEmpty
  | y :: ys => xs.isPrefixOf (y :: ys) || listInfixOf xs ys

/-- Case-insensitive substring test: one string occurs inside the other
after lowercasing. -/
def containsCI (needle hay : String) : Bool :=
  listInfixOf (strLower needle).toList (strLower hay).toList

/-- Modelled from the spec: the repository has no `ensureNoDuplicate`
function in its source; the spec describes the idempotency guard as a
case-insensitive substring/signature match that returns true when an
equivalent item already exists among the open items.  A candidate matches an
existing item when, after lowercasing, either title occurs inside the
other. -/
def ensureNoDuplicate (candidate : String) (existing : List Summary) : Bool :=
  existing.any (fun item => containsCI candidate item.title || containsCI item.title candidate)

end Entropys

namespace Entropys

/-- The request `make_request` hands to the HTTP library, assembled from the
kwargs of github_api.py lines 70-76 (headers, timeout, conditional JSON
body) and the URL of line 63. -/
def sentRequest (api : GitHubAPI) (method endpoint : String)
    (data : Option (List (String × Json))) : HttpRequest :=
  { method := strUpper method,
    url := api.base_url ++ "/" ++ lstrip endpoint '/',
    headers := api.headers,
    jsonBody :=
      if pyTruthyDict data &&
          (strUpper method == "POST" || strUpper method == "PATCH" ||
            strUpper method == "PUT") then data
      else none,
    timeout := 30 }

/-- The status-code classification of github_api.py lines 94-102: decoded
JSON on 200/201/202 (or the success marker dict when the body is not JSON),
`None` on every other status. -/
def classifyResponse (resp : Response) : Option Json :=
  if resp.status_code ∈ [200, 201, 202] then
    match resp.jsonBody with
    | some j => some j
    | none =>
        some (Json.obj
          [("success", Json.bool true),
           ("status_code", Json.num (resp.status_code : Int))])
  else none


/-- A concrete environment fixture: token, repository and actor all set. -/
def envFix : Env := fun name =>
  if name = "GITHUB_TOKEN" then some "testtoken"
  else if name = "GITHUB_REPOSITORY" then some "o/r"
  else if name = "GITHUB_ACTOR" then some "tester"
  else none

/-- An environment fixture with no `GITHUB_TOKEN`. -/
def envNoToken : Env := fun name =>
  if name = "GITHUB_REPOSITORY" then some "o/r" else none

/-- The header dictionary `get_github_headers` produces for the fixture
token. -/
def headersFix : List (String × String) :=
  [("Authorization", "Bearer testtoken"),
   ("Accept", "application/vnd.github.v3+json"),
   ("Content-Type", "application/json"),
   ("User-Agent", "GitHub-Agent/1.0")]

/-- The facade object `GitHubAPI.__init__` builds from `envFix`. -/
def apiFix : GitHubAPI :=
  { base_url := "https://api.github.com",
    repo := "o/r",
    actor := "tester",
    headers := headersFix }

/-- An HTTP library that answers every request with 404 Not Found and a
structured GitHub error body. -/
def oracle404 : HttpOracle := fun _ =>
  Except.ok
    { status_code := 404, text := "Not Found",
      jsonBody := some (Json.obj [("message", Json.str "Not Found")]) }

/-- An HTTP library whose every call raises a connection error. -/
def oracleConnFail : HttpOracle := fun _ =>
  Except.error (PyExn.requestError "Connection refused")

/-- An HTTP library that answers every request with 201 Created. -/
def oracle201 : HttpOracle := fun _ =>
  Except.ok
    { status_code := 201, text := "", jsonBody := some (Json.obj [("id", Json.num 1)]) }

/-- An HTTP library that answers every request with 200 and an empty JSON
array body. -/
def oracle200 : HttpOracle := fun _ =>
  Except.ok { status_code := 200, text := "[]", jsonBody := some (Json.arr []) }

/-- An HTTP library that answers every request with 204 No Content and a
body on which JSON decoding fails. -/
def oracle204 : HttpOracle := fun _ =>
  Except.ok { status_code := 204, text := "", jsonBody := none }

/-- One synthetic issue of the pagination fixture. -/
def fixtureIssue (i : Nat) : Json :=
  Json.obj [("number", Json.num (i : Int)), ("title", Json.str ("Issue " ++ toString i))]

/-- One 30-item page of the pagination fixture (pages are numbered from 1). -/
def fixturePage (p : Nat) : Json :=
  Json.arr ((List.range 30).map (fun k => fixtureIssue (30 * (p - 1) + k + 1)))

/-- A fixture API that serves the 90 open issues in 3 pages of 30 items
each: page 1 at the bare issues URL, pages 2 and 3 behind explicit page
parameters, and an empty page everywhere else. -/
def threePageOracle : HttpOracle := fun req =>
  if req.url = "https://api.github.com/repos/o/r/issues?state=open" then
    Except.ok { status_code := 200, text := "", jsonBody := some (fixturePage 1) }
  else if req.url = "https://api.github.com/repos/o/r/issues?state=open&page=2" then
    Except.ok { status_code := 200, text := "", jsonBody := some (fixturePage 2) }
  else if req.url = "https://api.github.com/repos/o/r/issues?state=open&page=3" then
    Except.ok { status_code := 200, text := "", jsonBody := some (fixturePage 3) }
  else
    Except.ok { status_code := 200, text := "", jsonBody := some (Json.arr []) }

/-- The number of summaries a result yields: the length of the decoded JSON
array, when the result is one. -/
def jsonArrLength : Except PyExn (Option Json) → Option Nat
  | Except.ok (some (Json.arr l)) => some l.length
  | _ => none

/-- With the HTTP library available and a supported method, `make_request`
performs exactly the assembled call and classifies its outcome; a raised
exception from the library is swallowed into `None`. -/
theorem make_request_sent (api : GitHubAPI) (oracle : HttpOracle)
    (method endpoint : String) (data : Option (List (String × Json)))
    (hm : strUpper method ∈ supportedMethods) :
    api.make_request true oracle method endpoint data =
      (match oracle (sentRequest api method endpoint data) with
        | Except.error _ =>
            (Except.ok none, [sentRequest api method endpoint data], api)
        | Except.ok resp =>
            (Except.ok (classifyResponse resp),
              [sentRequest api method endpoint data], api)) := by
  unfold GitHubAPI.make_request sentRequest classifyResponse
  rw [if_neg (by decide : ¬(true = false))]
  simp only []
  rw [if_pos hm]
  cases ho : oracle _ with
  | error e => simp [ho]
  | ok resp =>
      simp only [ho]
      by_cases hs : resp.status_code ∈ [200, 201, 202]
      · rw [if_pos hs, if_pos hs]
        cases resp.jsonBody <;> simp
      · rw [if_neg hs, if_neg hs]

/-- With an unsupported method, `make_request` raises `ValueError` inside
the `try`, the handler returns `None`, and no HTTP call is made. -/
theorem make_request_unsupported (api : GitHubAPI) (oracle : HttpOracle)
    (method endpoint : String) (data : Option (List (String × Json)))
    (hm : strUpper method ∉ supportedMethods) :
    api.make_request true oracle method endpoint data = (Except.ok none, [], api) := by
  unfold GitHubAPI.make_request
  rw [if_neg (by decide : ¬(true = false))]
  simp only []
  rw [if_neg hm]

/-- `make_request` never changes the facade object. -/
theorem make_request_self (api : GitHubAPI) (httpLib : Bool) (oracle : HttpOracle)
    (method endpoint : String) (data : Option (List (String × Json))) :
    (api.make_request httpLib oracle method endpoint data).2.2 = api := by
  cases httpLib with
  | false =>
      unfold GitHubAPI.make_request
      rw [if_pos rfl]
  | true =>
      by_cases hm : strUpper method ∈ supportedMethods
      · rw [make_request_sent api oracle method endpoint data hm]
        cases oracle (sentRequest api method endpoint data) <;> rfl
      · rw [make_request_unsupported api oracle method endpoint data hm]

/-- `make_request` always returns (as opposed to raising). -/
theorem make_request_ok (api : GitHubAPI) (httpLib : Bool) (oracle : HttpOracle)
    (method endpoint : String) (data : Option (List (String × Json))) :
    ∃ r, (api.make_request httpLib oracle method endpoint data).1 = Except.ok r := by
  cases httpLib with
  | false =>
      refine ⟨none, ?_⟩
      unfold GitHubAPI.make_request
      rw [if_pos rfl]
  | true =>
      by_cases hm : strUpper method ∈ supportedMethods
      · rw [make_request_sent api oracle method endpoint data hm]
        cases oracle (sentRequest api method endpoint data) with
        | error e => exact ⟨none, rfl⟩
        | ok resp => exact ⟨classifyResponse resp, rfl⟩
      · rw [make_request_unsupported api oracle method endpoint data hm]
        exact ⟨none, rfl⟩

/-- The trace of `make_request` with a supported method is the single
assembled call, whatever the HTTP library does. -/
theorem make_request_trace (api : GitHubAPI) (oracle : HttpOracle)
    (method endpoint : String) (data : Option (List (String × Json)))
    (hm : strUpper method ∈ supportedMethods) :
    (api.make_request true oracle method endpoint data).2.1 =
      [sentRequest api method endpoint data] := by
  rw [make_request_sent api oracle method endpoint data hm]
  cases oracle (sentRequest api method endpoint data) <;> rfl

/-- C1 counterexample: for a request answered with 404 (carrying a
structured error body) and for a request on which the HTTP library raises a
connection error, `make_request` returns the bare `None`, not a structured
failure value carrying the status or the body. -/
theorem make_request_failure_is_bare_none :
    (apiFix.make_request true oracle404 "GET" "repos/o/r/issues/999" none).1 =
      Except.ok none ∧
    (apiFix.make_request true oracleConnFail "GET" "repos/o/r" none).1 =
      Except.ok none := by
  exact ⟨rfl, rfl⟩

/-- C1 (amended): for every response with a status outside 200/201/202 and
for every exception raised by the HTTP library, `make_request` returns the
bare `None`; the status and raw body are only printed, never returned. -/
theorem make_request_failure_yields_none (api : GitHubAPI) (oracle : HttpOracle)
    (method endpoint : String) (data : Option (List (String × Json)))
    (hm : strUpper method ∈ supportedMethods) :
    (∀ resp, oracle (sentRequest api method endpoint data) = Except.ok resp →
        resp.status_code ∉ [200, 201, 202] →
        (api.make_request true oracle method endpoint data).1 = Except.ok none) ∧
    (∀ e, oracle (sentRequest api method endpoint data) = Except.error e →
        (api.make_request true oracle method endpoint data).1 = Except.ok none) := by
  constructor
  · intro resp ho hs
    rw [make_request_sent api oracle method endpoint data hm, ho]
    show Except.ok (classifyResponse resp) = Except.ok none
    unfold classifyResponse
    rw [if_neg hs]
  · intro e ho
    rw [make_request_sent api oracle method endpoint data hm, ho]

/-- Witness for the amended C1, at a concrete 404 response and a concrete
connection failure. -/
theorem make_request_failure_yields_none_witness :
    (apiFix.make_request true oracle404 "GET" "repos/o/r" none).1 =
      Except.ok none ∧
    (apiFix.make_request true oracleConnFail "GET" "repos/o/r" none).1 =
      Except.ok none :=
  ⟨(make_request_failure_yields_none apiFix oracle404 "GET" "repos/o/r" none
        (by decide)).1
      { status_code := 404, text := "Not Found",
        jsonBody := some (Json.obj [("message", Json.str "Not Found")]) }
      rfl (by decide),
    (make_request_failure_yields_none apiFix oracleConnFail "GET" "repos/o/r" none
        (by decide)).2
      (PyExn.requestError "Connection refused") rfl⟩

/-- C2 counterexample: a `create_comment` call with the empty body string
performs one HTTP POST (carrying the empty body), not zero HTTP calls. -/
theorem create_comment_empty_body_sends_http_call :
    (apiFix.create_comment true oracle201 1 "").2.1 =
      [{ method := "POST", url := "https://api.github.com/repos/o/r/issues/1/comments",
         headers := headersFix, jsonBody := some [("body", Json.str "")], timeout := 30 }] ∧
    ((apiFix.create_comment true oracle201 1 "").2.1).length = 1 := by
  exact ⟨rfl, rfl⟩

/-- C2 (amended): `create_comment` performs no local validation; for every
body, the empty string included, it issues exactly one HTTP POST whose JSON
payload is the one-key dict with the body. -/
theorem create_comment_always_single_post (api : GitHubAPI) (oracle : HttpOracle)
    (issue_number : Int) (body : String) :
    ((api.create_comment true oracle issue_number body).2.1).length = 1 ∧
    ∀ req ∈ (api.create_comment true oracle issue_number body).2.1,
      req.method = "POST" ∧ req.jsonBody = some [("body", Json.str body)] := by
  have hm : strUpper "POST" ∈ supportedMethods := by decide
  unfold GitHubAPI.create_comment
  rw [make_request_trace api oracle "POST" _ _ hm]
  refine ⟨rfl, ?_⟩
  intro req hreq
  rw [List.mem_singleton] at hreq
  subst hreq
  exact ⟨rfl, rfl⟩

/-- C3 counterexample: against the fixture API that serves the 90 open
issues in 3 pages of 30 items, `get_issues` yields 30 summaries with exactly
1 underlying HTTP call, not 90 summaries with 3 calls. -/
theorem get_issues_three_page_fixture :
    jsonArrLength (apiFix.get_issues true threePageOracle "open").1 = some 30 ∧
    ((apiFix.get_issues true threePageOracle "open").2.1).length = 1 := by
  exact ⟨rfl, rfl⟩

/-- C3 (amended): `get_issues` performs exactly one HTTP GET on the issues
endpoint and returns only the single page that call produces; it never
follows pagination links. -/
theorem get_issues_single_http_call (api : GitHubAPI) (oracle : HttpOracle)
    (state : String) :
    (api.get_issues true oracle state).2.1 =
      [sentRequest api "GET" ("repos/" ++ api.repo ++ "/issues?state=" ++ state) none] ∧
    ((api.get_issues true oracle state).2.1).length = 1 := by
  have hm : strUpper "GET" ∈ supportedMethods := by decide
  unfold GitHubAPI.get_issues
  rw [make_request_trace api oracle "GET" _ _ hm]
  exact ⟨rfl, rfl⟩

/-- C4: `make_request` returns a value for every method string, every
payload and every behaviour of the HTTP library (exceptions included); the
catch-all handler turns every raise into a returned `None`, so no exception
propagates. -/
theorem make_request_never_raises (api : GitHubAPI) (httpLib : Bool) (oracle : HttpOracle)
    (method endpoint : String) (data : Option (List (String × Json))) :
    ∃ r, (api.make_request httpLib oracle method endpoint data).1 = Except.ok r := by
  cases httpLib with
  | false =>
      refine ⟨none, ?_⟩
      unfold GitHubAPI.make_request
      rw [if_pos rfl]
  | true =>
      by_cases hm : strUpper method ∈ supportedMethods
      · rw [make_request_sent api oracle method endpoint data hm]
        cases oracle (sentRequest api method endpoint data) with
        | error e => exact ⟨none, rfl⟩
        | ok resp => exact ⟨classifyResponse resp, rfl⟩
      · rw [make_request_unsupported api oracle method endpoint data hm]
        exact ⟨none, rfl⟩

/-- A facade object successfully constructed from an environment carries
the base URL, the resolved repository, the resolved actor and the resolved
headers. -/
theorem init_ok_shape (env : Env) (api : GitHubAPI)
    (hinit : (GitHubAPI.init env).1 = Except.ok api) :
    ∃ repo hdrs, get_repository_info env = Except.ok repo ∧
      get_github_headers env = Except.ok hdrs ∧
      api = { base_url := "https://api.github.com", repo := repo,
              actor := get_github_actor env, headers := hdrs } := by
  unfold GitHubAPI.init at hinit
  cases hrepo : get_repository_info env with
  | error e => rw [hrepo] at hinit; exact absurd hinit (by simp)
  | ok repo =>
      rw [hrepo] at hinit
      cases hhdrs : get_github_headers env with
      | error e => rw [hhdrs] at hinit; exact absurd hinit (by simp)
      | ok hdrs =>
          rw [hhdrs] at hinit
          simp only [Except.ok.injEq] at hinit
          exact ⟨repo, hdrs, rfl, rfl, hinit.symm⟩

/-- Every HTTP call `make_request` performs carries exactly the facade's
header dictionary. -/
theorem make_request_headers (api : GitHubAPI) (httpLib : Bool) (oracle : HttpOracle)
    (method endpoint : String) (data : Option (List (String × Json))) :
    ∀ req ∈ (api.make_request httpLib oracle method endpoint data).2.1,
      req.headers = api.headers := by
  intro req hreq
  cases httpLib with
  | false =>
      unfold GitHubAPI.make_request at hreq
      rw [if_pos rfl] at hreq
      exact absurd hreq (by simp)
  | true =>
      by_cases hm : strUpper method ∈ supportedMethods
      · rw [make_request_trace api oracle method endpoint data hm] at hreq
        rw [List.mem_singleton] at hreq
        subst hreq
        rfl
      · rw [make_request_unsupported api oracle method endpoint data hm] at hreq
        exact absurd hreq (by simp)

/-- C5: if `GITHUB_TOKEN` or `GITHUB_REPOSITORY` is absent from the
environment, `GitHubAPI.__init__` fails with a `ValueError` (the
configuration error), and its trace of HTTP calls is empty: construction
never touches the network. -/
theorem init_missing_env_config_error (env : Env)
    (h : env "GITHUB_TOKEN" = none ∨ env "GITHUB_REPOSITORY" = none) :
    (∃ msg, (GitHubAPI.init env).1 = Except.error (PyExn.valueError msg)) ∧
    (GitHubAPI.init env).2 = [] := by
  refine ⟨?_, rfl⟩
  rcases h with h | h
  · cases hrepo : env "GITHUB_REPOSITORY" with
    | none =>
        refine ⟨"GITHUB_REPOSITORY environment variable not found", ?_⟩
        simp [GitHubAPI.init, get_repository_info, os_getenv, hrepo]
    | some r =>
        by_cases hr : r = ""
        · refine ⟨"GITHUB_REPOSITORY environment variable not found", ?_⟩
          simp [GitHubAPI.init, get_repository_info, os_getenv, hrepo, hr]
        · refine ⟨"GITHUB_TOKEN environment variable not found", ?_⟩
          simp [GitHubAPI.init, get_repository_info, get_github_headers,
            get_github_token, os_getenv, hrepo, hr, h]
  · refine ⟨"GITHUB_REPOSITORY environment variable not found", ?_⟩
    simp [GitHubAPI.init, get_repository_info, os_getenv, h]

/-- Witness for C5 at an environment that has a repository but no token. -/
theorem init_missing_env_config_error_witness :
    (∃ msg, (GitHubAPI.init envNoToken).1 = Except.error (PyExn.valueError msg)) ∧
    (GitHubAPI.init envNoToken).2 = [] :=
  init_missing_env_config_error envNoToken (Or.inl (by decide))

/-- C6 counterexample: a GET call, which carries no JSON body, still
attaches the `Content-Type: application/json` header, because the header
dictionary is fixed at construction time. -/
theorem get_request_carries_content_type :
    (apiFix.make_request true oracle200 "GET" "repos/o/r" none).2.1 =
      [{ method := "GET", url := "https://api.github.com/repos/o/r",
         headers := headersFix, jsonBody := none, timeout := 30 }] ∧
    ("Content-Type", "application/json") ∈ headersFix := by
  exact ⟨rfl, by decide⟩

/-- C6 (amended): every outgoing HTTP call of a facade built by
`__init__` attaches `Authorization: Bearer <token>`,
`Accept: application/vnd.github.v3+json` and, unconditionally,
`Content-Type: application/json` — whether or not a body is present. -/
theorem request_headers_fixed (env : Env) (token : String) (api : GitHubAPI)
    (htok : get_github_token env = Except.ok token)
    (hinit : (GitHubAPI.init env).1 = Except.ok api)
    (httpLib : Bool) (oracle : HttpOracle) (method endpoint : String)
    (data : Option (List (String × Json))) (req : HttpRequest)
    (hreq : req ∈ (api.make_request httpLib oracle method endpoint data).2.1) :
    ("Authorization", "Bearer " ++ token) ∈ req.headers ∧
    ("Accept", "application/vnd.github.v3+json") ∈ req.headers ∧
    ("Content-Type", "application/json") ∈ req.headers := by
  obtain ⟨repo, hdrs, hrep, hh, hapi⟩ := init_ok_shape env api hinit
  have hhd : hdrs =
      [("Authorization", "Bearer " ++ token),
       ("Accept", "application/vnd.github.v3+json"),
       ("Content-Type", "application/json"),
       ("User-Agent", "GitHub-Agent/1.0")] := by
    unfold get_github_headers at hh
    rw [htok] at hh
    simpa using hh.symm
  have hreqh := make_request_headers api httpLib oracle method endpoint data req hreq
  rw [hreqh, hapi]
  simp [hhd]

/-- Witness for the amended C6, at the fixture environment and a concrete
bodyless GET call. -/
theorem request_headers_fixed_witness :
    ("Authorization", "Bearer testtoken") ∈ (sentRequest apiFix "GET" "repos/o/r" none).headers ∧
    ("Accept", "application/vnd.github.v3+json") ∈ (sentRequest apiFix "GET" "repos/o/r" none).headers ∧
    ("Content-Type", "application/json") ∈ (sentRequest apiFix "GET" "repos/o/r" none).headers :=
  request_headers_fixed envFix "testtoken" apiFix rfl rfl true oracle200
    "GET" "repos/o/r" none (sentRequest apiFix "GET" "repos/o/r" none)
    (by
      rw [make_request_trace apiFix oracle200 "GET" "repos/o/r" none (by decide)]
      exact List.mem_singleton_self _)

/-- C7: the spec-modelled duplicate guard is case-insensitive — lowering or
raising the case of the candidate or of the existing titles never changes
its verdict — and in particular it flags "Fix Bug" against an existing
"fix bug". -/
theorem ensureNoDuplicate_case_insensitive (c c2 : String) (ex ex2 : List Summary)
    (hc : strLower c = strLower c2)
    (hex : List.Forall₂ (fun a b : Summary => strLower a.title = strLower b.title) ex ex2) :
    ensureNoDuplicate c ex = ensureNoDuplicate c2 ex2 ∧
    ensureNoDuplicate "Fix Bug"
      [{ number := 1, title := "fix bug", body := "", labels := [], state := "open" }] =
      true := by
  refine ⟨?_, by decide⟩
  have hCI : ∀ (a b a2 b2 : String), strLower a = strLower a2 → strLower b = strLower b2 →
      containsCI a b = containsCI a2 b2 := by
    intro a b a2 b2 ha hb
    unfold containsCI
    rw [ha, hb]
  induction hex with
  | nil => rfl
  | cons h htl ih =>
      simp only [ensureNoDuplicate, List.any_cons] at ih ⊢
      rw [hCI _ _ _ _ hc h, hCI _ _ _ _ h hc, ih]

/-- Witness for C7: the guard gives the same verdict for differently-cased
candidate and existing titles, and flags the concrete duplicate. -/
theorem ensureNoDuplicate_case_insensitive_witness :
    ensureNoDuplicate "Fix Bug"
        [{ number := 1, title := "fix bug", body := "", labels := [], state := "open" }] =
      ensureNoDuplicate "FIX BUG"
        [{ number := 2, title := "Fix BUG", body := "note", labels := ["bug"], state := "open" }] ∧
    ensureNoDuplicate "Fix Bug"
        [{ number := 1, title := "fix bug", body := "", labels := [], state := "open" }] =
      true :=
  ⟨(ensureNoDuplicate_case_insensitive "Fix Bug" "FIX BUG"
      [{ number := 1, title := "fix bug", body := "", labels := [], state := "open" }]
      [{ number := 2, title := "Fix BUG", body := "note", labels := ["bug"], state := "open" }]
      (by decide) (List.Forall₂.cons (by decide) List.Forall₂.nil)).1,
    (ensureNoDuplicate_case_insensitive "Fix Bug" "FIX BUG"
      [{ number := 1, title := "fix bug", body := "", labels := [], state := "open" }]
      [{ number := 2, title := "Fix BUG", body := "note", labels := ["bug"], state := "open" }]
      (by decide) (List.Forall₂.cons (by decide) List.Forall₂.nil)).2⟩

/-- C8: no public operation of `GitHubAPI` mutates the facade object —
`base_url`, `repo`, `actor` and `headers` after any call are exactly what
construction established. -/
theorem public_ops_preserve_state (api : GitHubAPI) (httpLib : Bool) (oracle : HttpOracle)
    (method endpoint state path message content name color branch title body : String)
    (maybeTitle maybeBody maybeState description due_on sha : Option String)
    (assignees labels : Option (List String)) (milestone : Option Int)
    (issue_number : Int) (data : Option (List (String × Json))) :
    (api.make_request httpLib oracle method endpoint data).2.2 = api ∧
    (api.get_repo_info httpLib oracle).2.2 = api ∧
    (api.get_issues httpLib oracle state).2.2 = api ∧
    (api.get_pull_requests httpLib oracle state).2.2 = api ∧
    (api.create_issue httpLib oracle title body assignees labels milestone).2.2 = api ∧
    (api.update_issue httpLib oracle issue_number maybeTitle maybeBody maybeState
        assignees labels).2.2 = api ∧
    (api.create_comment httpLib oracle issue_number body).2.2 = api ∧
    (api.get_milestones httpLib oracle).2.2 = api ∧
    (api.create_milestone httpLib oracle title description due_on).2.2 = api ∧
    (api.get_labels httpLib oracle).2.2 = api ∧
    (api.create_label httpLib oracle name color description).2.2 = api ∧
    (api.get_collaborators httpLib oracle).2.2 = api ∧
    (api.get_repository_content httpLib oracle path).2.2 = api ∧
    (api.create_or_update_file httpLib oracle path message content sha branch).2.2 = api := by
  refine ⟨?_, ?_, ?_, ?_, ?_, ?_, ?_, ?_, ?_, ?_, ?_, ?_, ?_, ?_⟩ <;>
    exact make_request_self _ _ _ _ _ _

/-- C9: the `create_improvement_pr` pull-request payload serializes exactly
the four keys title, body, head, base — no internal field leaks — and at the
concrete input T/B/feat it is precisely the expected dict with base main. -/
theorem create_improvement_pr_payload_keys (title description branch_name : String) :
    dictKeys (create_improvement_pr_pr_data title description branch_name) =
      ["title", "body", "head", "base"] ∧
    create_improvement_pr_pr_data "T" "B" "feat" =
      [("title", Json.str "T"), ("body", Json.str "B"),
       ("head", Json.str "feat"), ("base", Json.str "main")] :=
  ⟨rfl, rfl⟩

/-- C10: `make_request` classifies a response as success exactly on status
200, 201 or 202 — decoding the JSON body, or substituting the
success/status_code marker dict when the body is not JSON — and returns
`None` on every other status, other 2xx codes such as 204 included. -/
theorem make_request_success_classification (api : GitHubAPI) (oracle : HttpOracle)
    (method endpoint : String) (data : Option (List (String × Json))) (resp : Response)
    (hm : strUpper method ∈ supportedMethods)
    (ho : oracle (sentRequest api method endpoint data) = Except.ok resp) :
    ((resp.status_code = 200 ∨ resp.status_code = 201 ∨ resp.status_code = 202) →
        (∀ j, resp.jsonBody = some j →
            (api.make_request true oracle method endpoint data).1 =
              Except.ok (some j)) ∧
        (resp.jsonBody = none →
            (api.make_request true oracle method endpoint data).1 =
              Except.ok (some (Json.obj
                [("success", Json.bool true),
                 ("status_code", Json.num (resp.status_code : Int))])))) ∧
    (¬(resp.status_code = 200 ∨ resp.status_code = 201 ∨ resp.status_code = 202) →
        (api.make_request true oracle method endpoint data).1 = Except.ok none) := by
  have hmem : resp.status_code ∈ [200, 201, 202] ↔
      (resp.status_code = 200 ∨ resp.status_code = 201 ∨ resp.status_code = 202) := by
    simp
  constructor
  · intro hs
    constructor
    · intro j hj
      rw [make_request_sent api oracle method endpoint data hm, ho]
      show Except.ok (classifyResponse resp) = _
      unfold classifyResponse
      rw [if_pos (hmem.mpr hs), hj]
    · intro hj
      rw [make_request_sent api oracle method endpoint data hm, ho]
      show Except.ok (classifyResponse resp) = _
      unfold classifyResponse
      rw [if_pos (hmem.mpr hs), hj]
  · intro hs
    rw [make_request_sent api oracle method endpoint data hm, ho]
    show Except.ok (classifyResponse resp) = _
    unfold classifyResponse
    rw [if_neg (fun hin => hs (hmem.mp hin))]

/-- Witness for C10: a 200 response with a JSON array body decodes to that
body, and a 204 No Content response yields `None`. -/
theorem make_request_success_classification_witness :
    (apiFix.make_request true oracle200 "GET" "repos/o/r/issues" none).1 =
      Except.ok (some (Json.arr [])) ∧
    (apiFix.make_request true oracle204 "DELETE" "repos/o/r/labels/x" none).1 =
      Except.ok none :=
  ⟨((make_request_success_classification apiFix oracle200 "GET" "repos/o/r/issues" none
        { status_code := 200, text := "[]", jsonBody := some (Json.arr []) }
        (by decide) rfl).1 (Or.inl rfl)).1 (Json.arr []) rfl,
    (make_request_success_classification apiFix oracle204 "DELETE" "repos/o/r/labels/x" none
        { status_code := 204, text := "", jsonBody := none }
        (by decide) rfl).2 (by decide)⟩

end Entropys
